import Mathlib

/-!
Verification of the outbound-call session core: the session state machine,
turn-taking store, status mapper, turn engine and summarizer trigger.

Route handlers (the voice-script GET/POST, the status-callback POST and the
call-creation POST) are embedded directly from the TypeScript source.  The
session store module itself (`@/lib/session-store`) is not part of the given
sources — only its callers are — so each of its operations is modelled from
the specification, and each such definition carries a doc comment saying so.
External effects (the model-completion call, the call-placement call) are
parameterised by an explicit outcome value.
-/

namespace CallCore

/-- Turn roles in a transcript (`system`, `user`, `assistant`). -/
inductive Role where
  | system
  | user
  | assistant
deriving DecidableEq, Repr

/-- Internal call lifecycle statuses,
`draft, queued, ringing, in-progress, completed, no-answer, failed`. -/
inductive CallStatus where
  | draft
  | queued
  | ringing
  | inProgress
  | completed
  | noAnswer
  | failed
deriving DecidableEq, Repr

/-- One utterance in a session transcript (ids and timestamps are omitted:
no claim mentions them). -/
structure Turn where
  role : Role
  content : String
deriving DecidableEq, Repr

/-- A call session: lifecycle status, transcript, optional summary and error,
the provider call identifier, and the configuration fields the claims need
(greeting and opening question). -/
structure Session where
  status : CallStatus
  transcript : List Turn
  summary : Option String
  lastError : Option String
  callSid : Option String
  greeting : String
  openingQuestion : String
deriving DecidableEq, Repr

/-- JavaScript `String.prototype.trim()`: strip leading and trailing
whitespace, over the string's character list. -/
def jsTrim (s : String) : String :=
  ⟨((s.data.dropWhile Char.isWhitespace).reverse.dropWhile
      Char.isWhitespace).reverse⟩

/-- JavaScript `String.prototype.toLowerCase()`, over the string's character
list. -/
def jsToLower (s : String) : String :=
  ⟨s.data.map Char.toLower⟩

/-- Rank of a status along the forward order
`draft < queued < ringing < in-progress < terminal`. -/
def rank : CallStatus → Nat
  | .draft => 0
  | .queued => 1
  | .ringing => 2
  | .inProgress => 3
  | .completed => 4
  | .noAnswer => 4
  | .failed => 4

/-- A terminal status: `completed`, `no-answer` or `failed`. -/
def isTerminal : CallStatus → Bool
  | .completed => true
  | .noAnswer => true
  | .failed => true
  | _ => false

/-- Modelled from the spec (the session-store module is not in the given
sources): a transition is legal when the current status is non-terminal and
the target is strictly further along the forward order
`draft → queued → ringing → in-progress → terminal`, or when `in-progress`
re-enters itself ("`in-progress` may be re-entered from itself"). -/
def canTransition (current target : CallStatus) : Bool :=
  !isTerminal current &&
    (rank current < rank target ||
      (current == .inProgress && target == .inProgress))

/-- Modelled from the spec (`updateStatus` of the missing session-store
module): "applies the transition if legal per the state machine; illegal
transitions are ignored (last-writer silently rejected) rather than
raising". -/
def updateStatus (s : Session) (target : CallStatus) : Session :=
  if canTransition s.status target then { s with status := target } else s

/-- Modelled from the spec (`appendTurn` of the missing session-store
module): "appends a Turn with a fresh id and current timestamp". -/
def appendMessage (s : Session) (role : Role) (content : String) : Session :=
  { s with transcript := s.transcript ++ [⟨role, content⟩] }

/-- Modelled from the spec (`ensureGreetingCaptured` of the missing
session-store module): "idempotently inserts the one allowed `system`-role
greeting turn if none exists yet", and per the data-model invariant the
system greeting turn sits "before any `user`/`assistant` turn". -/
def ensureGreetingCaptured (s : Session) (greetingText : String) : Session :=
  if s.transcript.any (fun t => t.role == .system) then s
  else { s with transcript := ⟨.system, greetingText⟩ :: s.transcript }

/-- Modelled from the spec (`setSummary` of the missing session-store
module): a single-field mutator, subject to the data-model invariant
"`summary`: optional text, set at most once". -/
def setSummary (s : Session) (text : String) : Session :=
  match s.summary with
  | some _ => s
  | none => { s with summary := some text }

/-- Modelled from the spec (`setError` of the missing session-store module):
a single-field mutator writing `lastError`. -/
def setError (s : Session) (text : String) : Session :=
  { s with lastError := some text }

/-- Modelled from the spec (`setCallId` of the missing session-store
module): "sets the provider call identifier once"; idempotent guard against
overwriting an already-set identifier. -/
def setCallSid (s : Session) (sid : String) : Session :=
  match s.callSid with
  | some _ => s
  | none => { s with callSid := some sid }

/-- Modelled from the spec (`create` of the missing session-store module):
"allocates a new session with `status = draft`, empty transcript, no
summary, no error". -/
def createSession (greeting openingQuestion : String) : Session :=
  { status := .draft
    transcript := []
    summary := none
    lastError := none
    callSid := none
    greeting := greeting
    openingQuestion := openingQuestion }

/-- Modelled from the spec (`fallbackLine` of the missing session-store
module): the "fixed substitute reply used when the model call fails"; the
exact wording is not in the given sources, only that it is one fixed
non-empty line. -/
def fallbackLine : String :=
  "I want to make sure I get this right. Could you repeat that for me?"

/-- The fixed re-prompt of the speech handler, from the source:
`"I didn't quite catch that. Could you say that again?"`. -/
def repromptLine : String :=
  "I didn't quite catch that. Could you say that again?"

/-- Outcome of one model-completion call: the call throws, or succeeds with
optional reply content (`completion.choices[0]?.message?.content`). -/
inductive CompletionOutcome where
  | failure
  | success (content : Option String)
deriving DecidableEq, Repr

/-- The assistant reply computed by the speech handler, from the source:
`completion.choices[0]?.message?.content?.trim() ?? fallbackLine()` inside a
`try`, with `assistantReply = fallbackLine()` in the `catch`.  Note `??`
fires only on absent content, not on an empty string. -/
def replyOf : CompletionOutcome → String
  | .failure => fallbackLine
  | .success none => fallbackLine
  | .success (some c) => jsTrim c

/-- What one speech-turn exchange returns to the caller: the HTTP status of
the response, the lines spoken back (in order), and whether the model
completion call was invoked. -/
structure VoiceReply where
  httpStatus : Nat
  saidLines : List String
  modelInvoked : Bool
deriving DecidableEq, Repr

/-- The speech-turn handler `handleConversationTurn` from the source, for a
session that exists.  `speechIn` is the raw `SpeechResult` form field
(`(formData.get("SpeechResult") as string | null)?.trim() ?? ""`); the
model-completion effect is the explicit `outcome` parameter. -/
def handleConversationTurn (sess : Session) (speechIn : Option String)
    (outcome : CompletionOutcome) : Session × VoiceReply :=
  let speechResult := (speechIn.map jsTrim).getD ""
  let sess := updateStatus sess .inProgress
  if speechResult = "" then
    (sess, ⟨200, [repromptLine, sess.openingQuestion], false⟩)
  else
    let sess := appendMessage sess .user speechResult
    let assistantReply := replyOf outcome
    let sess := appendMessage sess .assistant assistantReply
    (sess, ⟨200, [assistantReply], true⟩)

/-- The voice-script GET handler from the source, for a session that
exists: `ensureGreetingCaptured(session.sessionId, session.config.greeting)`
then `updateStatus(session.sessionId, "in-progress")`. -/
def voiceScriptGet (sess : Session) : Session :=
  updateStatus (ensureGreetingCaptured sess sess.greeting) .inProgress

/-- The status mapper `mapTwilioStatus` from the source: a total function
from provider status strings to internal statuses, defaulting to
`failed`. -/
def mapTwilioStatus (status : String) : CallStatus :=
  if status = "initiated" || status = "queued" then .queued
  else if status = "ringing" then .ringing
  else if status = "answered" || status = "in-progress" then .inProgress
  else if status = "completed" then .completed
  else if status = "no-answer" then .noAnswer
  else .failed

/-- The summary text chosen by `maybeSummarize` on model success, from the
source: `completion.choices[0]?.message?.content?.trim() ?? "Call completed.
Summary unavailable."`. -/
def summaryText (content : Option String) : String :=
  (content.map jsTrim).getD "Call completed. Summary unavailable."

/-- The summarizer trigger `maybeSummarize` from the source, for a session
that exists.  Returns the mutated session and whether a completion was
requested (the guard `session.transcript.length === 0` returns early; the
`catch` branch only logs).  Note the guard checks the full transcript,
system turns included. -/
def maybeSummarize (s : Session) (outcome : CompletionOutcome) :
    Session × Bool :=
  if s.transcript.isEmpty then (s, false)
  else
    match outcome with
    | .failure => (s, true)
    | .success content => (setSummary s (summaryText content), true)

/-- Result of the status-callback POST handler: the session after the
request (when one was found), whether the response body was `{ ok: true }`,
and whether the summarizer requested a completion during the request. -/
structure StatusCallbackResult where
  session : Option Session
  ok : Bool
  summarizerFired : Bool
deriving DecidableEq, Repr

/-- The status-callback POST handler from the source, after session lookup:
`sess` is the session found via the `session` query parameter or the
`CallSid` field (or `none`), `callStatus` the raw `CallStatus` form field.
The handler lowercases the status, acknowledges with `{ ok: true }` when the
session or a non-empty status is missing, otherwise applies
`updateStatus(mapTwilioStatus(status))` and, when the raw lowercased status
is `"completed"`, runs `maybeSummarize`. -/
def twilioStatusPost (sess : Option Session) (callStatus : Option String)
    (outcome : CompletionOutcome) : StatusCallbackResult :=
  let status := callStatus.map jsToLower
  match sess with
  | none => ⟨none, true, false⟩
  | some s =>
    match status with
    | none => ⟨some s, true, false⟩
    | some st =>
      if st = "" then ⟨some s, true, false⟩
      else
        let s1 := updateStatus s (mapTwilioStatus st)
        if st = "completed" then
          let r := maybeSummarize s1 outcome
          ⟨some r.1, true, r.2⟩
        else ⟨some s1, true, false⟩

/-- Outcome of one call-placement call (`client.calls.create`). -/
inductive PlaceCallOutcome where
  | success (sid : String)
  | failure (message : String)
deriving DecidableEq, Repr

/-- The call-creation POST handler from the source, after payload
validation: the session is created, then the call is placed; on success the
call sid is stored and status moves to `queued` (HTTP 201), on failure the
error message is recorded via `setError` and surfaced with HTTP 502. -/
def createCallPost (greeting openingQuestion : String)
    (outcome : PlaceCallOutcome) : Session × Nat :=
  let sess := createSession greeting openingQuestion
  match outcome with
  | .success sid =>
      (updateStatus (setCallSid sess sid) .queued, 201)
  | .failure message =>
      (setError sess message, 502)

/-- One externally-triggered event against a session: the voice-script GET,
a speech-turn POST, or a status-callback POST. -/
inductive Event where
  | greet
  | speech (input : Option String) (outcome : CompletionOutcome)
  | statusCb (callStatus : Option String) (outcome : CompletionOutcome)
deriving DecidableEq, Repr

/-- Apply one event to a session, as the route handlers do. -/
def step (s : Session) : Event → Session
  | .greet => voiceScriptGet s
  | .speech input outcome => (handleConversationTurn s input outcome).1
  | .statusCb cs outcome => ((twilioStatusPost (some s) cs outcome).session).getD s

/-- A session state reachable from creation by a sequence of events. -/
def Reachable (greeting openingQuestion : String) (s : Session) : Prop :=
  ∃ events : List Event,
    s = events.foldl step (createSession greeting openingQuestion)

/-- No turn with role `user` is immediately followed by another `user`
turn. -/
def NoConsecutiveUsers (l : List Turn) : Prop :=
  List.Chain' (fun a b => ¬(a.role = Role.user ∧ b.role = Role.user)) l

/-- The transcript does not end in a `user` turn. -/
def LastNotUser (l : List Turn) : Prop :=
  ∀ t ∈ l.getLast?, t.role ≠ Role.user

/-! ### Helper lemmas about the store operations -/

@[simp]
theorem updateStatus_transcript (s : Session) (t : CallStatus) :
    (updateStatus s t).transcript = s.transcript := by
  unfold updateStatus; split <;> rfl

@[simp]
theorem updateStatus_openingQuestion (s : Session) (t : CallStatus) :
    (updateStatus s t).openingQuestion = s.openingQuestion := by
  unfold updateStatus; split <;> rfl

@[simp]
theorem updateStatus_summary (s : Session) (t : CallStatus) :
    (updateStatus s t).summary = s.summary := by
  unfold updateStatus; split <;> rfl

@[simp]
theorem setSummary_transcript (s : Session) (text : String) :
    (setSummary s text).transcript = s.transcript := by
  unfold setSummary; split <;> rfl

@[simp]
theorem maybeSummarize_transcript (s : Session) (o : CompletionOutcome) :
    ((maybeSummarize s o).1).transcript = s.transcript := by
  unfold maybeSummarize
  split
  · rfl
  · cases o <;> simp

theorem updateStatus_of_terminal (s : Session) (t : CallStatus)
    (h : isTerminal s.status = true) : updateStatus s t = s := by
  unfold updateStatus canTransition
  simp [h]

theorem rank_le_of_canTransition :
    ∀ a b : CallStatus, canTransition a b = true → rank a ≤ rank b := by
  intro a b
  cases a <;> cases b <;> decide

theorem rank_updateStatus_le (s : Session) (t : CallStatus) :
    rank s.status ≤ rank ((updateStatus s t).status) := by
  unfold updateStatus
  split
  · exact rank_le_of_canTransition _ _ (by assumption)
  · exact le_refl _

/-! ### Claim theorems -/

/-- C3: the status mapper is a total, side-effect-free function on provider
status strings: `initiated` and `queued` map to `queued`; `ringing` to
`ringing`; `answered` and `in-progress` to `in-progress`; `completed` to
`completed`; `no-answer` to `no-answer`; and every other input (`busy`,
`failed`, `canceled`, or unrecognized) maps to `failed`. -/
theorem C3_mapTwilioStatus_total_mapping :
    mapTwilioStatus "initiated" = CallStatus.queued ∧
    mapTwilioStatus "queued" = CallStatus.queued ∧
    mapTwilioStatus "ringing" = CallStatus.ringing ∧
    mapTwilioStatus "answered" = CallStatus.inProgress ∧
    mapTwilioStatus "in-progress" = CallStatus.inProgress ∧
    mapTwilioStatus "completed" = CallStatus.completed ∧
    mapTwilioStatus "no-answer" = CallStatus.noAnswer ∧
    ∀ s : String,
      s ∉ (["initiated", "queued", "ringing", "answered", "in-progress",
        "completed", "no-answer"] : List String) →
      mapTwilioStatus s = CallStatus.failed := by
  refine ⟨by decide, by decide, by decide, by decide, by decide, by decide,
    by decide, ?_⟩
  intro s hs
  simp only [List.mem_cons, List.not_mem_nil, or_false, not_or] at hs
  obtain ⟨h1, h2, h3, h4, h5, h6, h7⟩ := hs
  unfold mapTwilioStatus
  simp [h1, h2, h3, h4, h5, h6, h7]

/-- Witness for C3 at the concrete unmapped input `"busy"`. -/
theorem C3_mapTwilioStatus_total_mapping_witness :
    mapTwilioStatus "busy" = CallStatus.failed :=
  C3_mapTwilioStatus_total_mapping.2.2.2.2.2.2.2 "busy" (by decide)

/-- C9: on failure of the summarization completion call the session is left
entirely unchanged — the summary stays what it was (absent if absent), the
status is unaffected, and the session is not marked failed. -/
theorem C9_summarize_failure_leaves_session :
    ∀ s : Session,
      (maybeSummarize s CompletionOutcome.failure).1 = s ∧
      ((maybeSummarize s CompletionOutcome.failure).1).summary = s.summary ∧
      ((maybeSummarize s CompletionOutcome.failure).1).status = s.status := by
  intro s
  unfold maybeSummarize
  split <;> exact ⟨rfl, rfl, rfl⟩

/-- C10: a status-callback request whose session lookup fails, or whose
`CallStatus` field is absent, mutates no session state and is still
acknowledged with `{ ok: true }`. -/
theorem C10_statusCallback_unknown_or_missing_ack :
    (∀ (cs : Option String) (o : CompletionOutcome),
        twilioStatusPost none cs o = ⟨none, true, false⟩) ∧
    (∀ (s : Session) (o : CompletionOutcome),
        twilioStatusPost (some s) none o = ⟨some s, true, false⟩) :=
  ⟨fun _ _ => rfl, fun _ _ => rfl⟩

/-- C7: when call placement fails after the session was created, the error
message is recorded via `setError`, the resulting session's status is still
`draft` (not mutated past it), and the endpoint surfaces a failing (502)
response. -/
theorem C7_placeCall_failure_records_error :
    ∀ greeting openingQuestion message : String,
      createCallPost greeting openingQuestion
          (PlaceCallOutcome.failure message) =
        (setError (createSession greeting openingQuestion) message, 502) ∧
      (createCallPost greeting openingQuestion
          (PlaceCallOutcome.failure message)).1.status = CallStatus.draft ∧
      (createCallPost greeting openingQuestion
          (PlaceCallOutcome.failure message)).1.lastError = some message :=
  fun _ _ _ => ⟨rfl, rfl, rfl⟩

theorem handleTurn_empty_speech (s : Session) (input : Option String)
    (o : CompletionOutcome) (h : (input.map jsTrim).getD "" = "") :
    (handleConversationTurn s input o).1.transcript = s.transcript ∧
    (handleConversationTurn s input o).2 =
      ⟨200, [repromptLine, s.openingQuestion], false⟩ := by
  unfold handleConversationTurn
  simp [h]

/-- C5: for speech input that is empty or whitespace-only after trimming,
the speech-turn handler appends zero turns, never invokes the model
completion call, and responds with the fixed re-prompt followed by the
original opening question. -/
theorem C5_empty_speech_no_turns_reprompt :
    ∀ (s : Session) (input : Option String) (o : CompletionOutcome),
      (input.map jsTrim).getD "" = "" →
      (handleConversationTurn s input o).1.transcript = s.transcript ∧
      (handleConversationTurn s input o).2 =
        ⟨200, [repromptLine, s.openingQuestion], false⟩ :=
  fun s input o h => handleTurn_empty_speech s input o h

/-- Witness for C5 at a concrete whitespace-only input. -/
theorem C5_empty_speech_no_turns_reprompt_witness :
    (handleConversationTurn (createSession "Hi" "Q") (some "  ")
        CompletionOutcome.failure).1.transcript =
      (createSession "Hi" "Q").transcript ∧
    (handleConversationTurn (createSession "Hi" "Q") (some "  ")
        CompletionOutcome.failure).2 =
      ⟨200, [repromptLine, (createSession "Hi" "Q").openingQuestion], false⟩ :=
  C5_empty_speech_no_turns_reprompt (createSession "Hi" "Q") (some "  ")
    CompletionOutcome.failure (by decide)

theorem chain_rank_scanl :
    ∀ (updates : List CallStatus) (s : Session),
      List.Chain' (fun a b => rank a ≤ rank b)
        ((updates.scanl updateStatus s).map Session.status) := by
  intro updates
  induction updates with
  | nil =>
    intro s
    simp [List.scanl]
  | cons t ts ih =>
    intro s
    rw [List.scanl_cons, List.singleton_append, List.map_cons,
      List.chain'_cons']
    refine ⟨?_, ih (updateStatus s t)⟩
    intro b hb
    have hhead :
        ((ts.scanl updateStatus (updateStatus s t)).map Session.status).head? =
          some ((updateStatus s t).status) := by
      cases ts <;> simp [List.scanl]
    rw [hhead, Option.mem_some_iff] at hb
    exact hb ▸ rank_updateStatus_le s t

theorem foldl_updateStatus_terminal :
    ∀ (updates : List CallStatus) (s : Session),
      isTerminal s.status = true → updates.foldl updateStatus s = s := by
  intro updates
  induction updates with
  | nil => intro s _; rfl
  | cons t ts ih =>
    intro s h
    rw [List.foldl_cons, updateStatus_of_terminal s t h]
    exact ih s h

/-- C2: along any sequence of `updateStatus` calls the observed status
trajectory is non-decreasing under `draft < queued < ringing < in-progress`
(terminal statuses ranked above all), once a terminal status is reached no
further change is observed, and an update whose transition is illegal is
discarded without any effect on the session. -/
theorem C2_updateStatus_monotone_terminal_absorbing :
    (∀ (s : Session) (updates : List CallStatus),
        List.Chain' (fun a b => rank a ≤ rank b)
          ((updates.scanl updateStatus s).map Session.status)) ∧
    (∀ (s : Session) (updates : List CallStatus),
        isTerminal s.status = true → updates.foldl updateStatus s = s) ∧
    (∀ (s : Session) (t : CallStatus),
        canTransition s.status t = false → updateStatus s t = s) := by
  refine ⟨fun s updates => chain_rank_scanl updates s,
    fun s updates h => foldl_updateStatus_terminal updates s h,
    fun s t h => ?_⟩
  unfold updateStatus
  simp [h]

/-- Witness for C2: a `queued` update arriving after `completed` is
discarded, both as a single call and along a sequence. -/
theorem C2_updateStatus_monotone_terminal_absorbing_witness :
    [CallStatus.queued].foldl updateStatus
        ⟨CallStatus.completed, [], none, none, none, "g", "q"⟩ =
      ⟨CallStatus.completed, [], none, none, none, "g", "q"⟩ ∧
    updateStatus ⟨CallStatus.completed, [], none, none, none, "g", "q"⟩
        CallStatus.queued =
      ⟨CallStatus.completed, [], none, none, none, "g", "q"⟩ :=
  ⟨C2_updateStatus_monotone_terminal_absorbing.2.1 _ [CallStatus.queued]
      (by decide),
    C2_updateStatus_monotone_terminal_absorbing.2.2 _ CallStatus.queued
      (by decide)⟩

theorem ensureGreeting_of_hasSystem (s : Session) (g : String)
    (h : s.transcript.any (fun t => t.role == .system) = true) :
    ensureGreetingCaptured s g = s := by
  unfold ensureGreetingCaptured
  simp [h]

theorem ensureGreeting_of_noSystem (s : Session) (g : String)
    (h : s.transcript.any (fun t => t.role == .system) = false) :
    ensureGreetingCaptured s g =
      { s with transcript := ⟨.system, g⟩ :: s.transcript } := by
  unfold ensureGreetingCaptured
  simp [h]

theorem ensureGreeting_iterate_fixed (g : String) (k : Nat) (s : Session)
    (h : s.transcript.any (fun t => t.role == .system) = true) :
    (fun x => ensureGreetingCaptured x g)^[k] s = s := by
  induction k with
  | zero => rfl
  | succ n ih =>
    rw [Function.iterate_succ_apply, ensureGreeting_of_hasSystem s g h]
    exact ih

/-- C8: for a session whose transcript holds no system turn yet, calling
`ensureGreetingCaptured` N ≥ 1 times with the greeting text yields a
transcript whose head is the single system greeting turn — so exactly one
system-role turn, sitting before any user or assistant turn. -/
theorem C8_ensureGreeting_idempotent_single_system :
    ∀ (s : Session) (g : String) (N : Nat),
      1 ≤ N →
      s.transcript.countP (fun t => t.role == .system) = 0 →
      ((fun x => ensureGreetingCaptured x g)^[N] s).transcript =
        ⟨Role.system, g⟩ :: s.transcript ∧
      (((fun x => ensureGreetingCaptured x g)^[N] s).transcript.countP
        (fun t => t.role == .system)) = 1 := by
  intro s g N hN h0
  have hany : s.transcript.any (fun t => t.role == .system) = false := by
    rw [List.any_eq_false]
    intro x hx
    exact List.countP_eq_zero.mp h0 x hx
  obtain ⟨k, rfl⟩ : ∃ k, N = k + 1 :=
    ⟨N - 1, (Nat.succ_pred_eq_of_pos hN).symm⟩
  rw [Function.iterate_succ_apply, ensureGreeting_of_noSystem s g hany,
    ensureGreeting_iterate_fixed g k _ (by simp)]
  refine ⟨rfl, ?_⟩
  simp [List.countP_cons, h0]

/-- Witness for C8: two calls on a freshly created session leave exactly the
one system greeting turn. -/
theorem C8_ensureGreeting_idempotent_single_system_witness :
    ((fun x => ensureGreetingCaptured x "Hi")^[2]
        (createSession "Hi" "Q")).transcript =
      ⟨Role.system, "Hi"⟩ :: (createSession "Hi" "Q").transcript ∧
    (((fun x => ensureGreetingCaptured x "Hi")^[2]
        (createSession "Hi" "Q")).transcript.countP
      (fun t => t.role == .system)) = 1 :=
  C8_ensureGreeting_idempotent_single_system (createSession "Hi" "Q") "Hi" 2
    (by decide) (by decide)

/-- Combined transcript invariant used for the alternation property: no two
adjacent user turns, and the transcript does not end in a user turn. -/
def TranscriptInv (l : List Turn) : Prop :=
  NoConsecutiveUsers l ∧ LastNotUser l

theorem handleTurn_appends_pair (s : Session) (input : Option String)
    (o : CompletionOutcome) (h : (input.map jsTrim).getD "" ≠ "") :
    (handleConversationTurn s input o).1.transcript =
      s.transcript ++
        [⟨Role.user, (input.map jsTrim).getD ""⟩,
          ⟨Role.assistant, replyOf o⟩] := by
  unfold handleConversationTurn
  simp [h, appendMessage]

theorem transcriptInv_append_pair (l : List Turn) (u a : Turn)
    (ha : a.role ≠ Role.user) (h : TranscriptInv l) :
    TranscriptInv (l ++ [u, a]) := by
  obtain ⟨hc, hl⟩ := h
  constructor
  · refine List.chain'_append.mpr ⟨hc, ?_, ?_⟩
    · exact List.chain'_cons.mpr ⟨fun hua => ha hua.2, List.chain'_singleton a⟩
    · intro x hx y hy hxy
      simp only [List.head?_cons, Option.mem_some_iff] at hy
      exact hl x hx (hy ▸ hxy).1
  · intro t ht
    have happ : l ++ [u, a] = (l ++ [u]) ++ [a] := by simp
    rw [happ, List.getLast?_concat, Option.mem_some_iff] at ht
    exact ht ▸ ha

theorem twilioStatusPost_some_transcript (s : Session) (cs : Option String)
    (o : CompletionOutcome) :
    (((twilioStatusPost (some s) cs o).session).getD s).transcript =
      s.transcript := by
  unfold twilioStatusPost
  cases cs with
  | none => rfl
  | some st =>
    simp only [Option.map_some]
    by_cases h1 : jsToLower st = ""
    · simp [h1]
    · by_cases h2 : jsToLower st = "completed" <;> simp [h1, h2]

theorem step_preserves_inv (s : Session) (ev : Event)
    (h : TranscriptInv s.transcript) :
    TranscriptInv ((step s ev).transcript) := by
  cases ev with
  | greet =>
    show TranscriptInv
      ((updateStatus (ensureGreetingCaptured s s.greeting)
        CallStatus.inProgress).transcript)
    rw [updateStatus_transcript]
    unfold ensureGreetingCaptured
    split
    · exact h
    · obtain ⟨hc, hl⟩ := h
      constructor
      · refine List.chain'_cons'.mpr ⟨?_, hc⟩
        intro y _ hy
        exact absurd hy.1 (by simp)
      · intro t ht
        cases hl0 : s.transcript with
        | nil =>
          rw [hl0] at ht
          simp only [List.getLast?_singleton, Option.mem_some_iff] at ht
          subst ht
          simp
        | cons b bs =>
          rw [hl0, List.getLast?_cons_cons] at ht
          exact hl t (by rw [hl0]; exact ht)
  | speech input o =>
    show TranscriptInv ((handleConversationTurn s input o).1.transcript)
    by_cases he : (input.map jsTrim).getD "" = ""
    · rw [(handleTurn_empty_speech s input o he).1]
      exact h
    · rw [handleTurn_appends_pair s input o he]
      exact transcriptInv_append_pair _ _ _ (by simp) h
  | statusCb cs o =>
    show TranscriptInv
      ((((twilioStatusPost (some s) cs o).session).getD s).transcript)
    rw [twilioStatusPost_some_transcript]
    exact h

theorem reachable_transcriptInv (g q : String) (s : Session)
    (h : Reachable g q s) : TranscriptInv s.transcript := by
  obtain ⟨events, rfl⟩ := h
  suffices hstep : ∀ (l : List Event) (s₀ : Session),
      TranscriptInv s₀.transcript →
      TranscriptInv ((l.foldl step s₀).transcript) by
    refine hstep events _ ⟨List.chain'_nil, ?_⟩
    intro t ht
    simp [createSession] at ht
  intro l
  induction l with
  | nil => intro s₀ h₀; exact h₀
  | cons e es ih =>
    intro s₀ h₀
    rw [List.foldl_cons]
    exact ih _ (step_preserves_inv s₀ e h₀)

/-- C4: for every speech input non-empty after trimming, one call of the
speech-turn handler appends exactly two turns — a user turn carrying the
recognized text followed by an assistant turn — and over every reachable
session a user turn is never immediately followed by another user turn. -/
theorem C4_speech_appends_user_then_assistant :
    (∀ (s : Session) (input : Option String) (o : CompletionOutcome),
        (input.map jsTrim).getD "" ≠ "" →
        (handleConversationTurn s input o).1.transcript =
          s.transcript ++
            [⟨Role.user, (input.map jsTrim).getD ""⟩,
              ⟨Role.assistant, replyOf o⟩]) ∧
    (∀ (greeting openingQuestion : String) (s : Session),
        Reachable greeting openingQuestion s →
        NoConsecutiveUsers s.transcript) :=
  ⟨fun s input o h => handleTurn_appends_pair s input o h,
    fun g q s h => (reachable_transcriptInv g q s h).1⟩

/-- Witness for C4: a concrete non-empty utterance on a fresh session
appends the user turn and the assistant turn, and the fresh session itself
is reachable with an alternation-coherent transcript. -/
theorem C4_speech_appends_user_then_assistant_witness :
    (handleConversationTurn (createSession "Hi" "Q") (some "hello")
        CompletionOutcome.failure).1.transcript =
      (createSession "Hi" "Q").transcript ++
        [⟨Role.user, ((some "hello" : Option String).map jsTrim).getD ""⟩,
          ⟨Role.assistant, replyOf CompletionOutcome.failure⟩] ∧
    NoConsecutiveUsers (createSession "Hi" "Q").transcript :=
  ⟨C4_speech_appends_user_then_assistant.1 (createSession "Hi" "Q")
      (some "hello") CompletionOutcome.failure (by decide),
    C4_speech_appends_user_then_assistant.2 "Hi" "Q" (createSession "Hi" "Q")
      ⟨[], rfl⟩⟩

theorem maybeSummarize_fired (s : Session) (o : CompletionOutcome) :
    (maybeSummarize s o).2 = true ↔ s.transcript ≠ [] := by
  unfold maybeSummarize
  by_cases h : s.transcript.isEmpty
  · rw [List.isEmpty_iff] at h
    simp [h]
  · rw [List.isEmpty_iff] at h
    cases o <;> simp [h]

/-- C1 counterexample: after the greeting webhook the transcript holds only
the system greeting turn, so the transcript excluding system turns is empty
and no summarization should fire per the claim; yet a `completed` status
callback makes the summarizer request a completion and set a summary,
because the source guards on the full transcript length. -/
theorem C1_counterexample :
    ((step (createSession "Hi" "Q") Event.greet).transcript.filter
        (fun t => !(t.role == Role.system))).length = 0 ∧
    (step (createSession "Hi" "Q") Event.greet).status ≠
      CallStatus.completed ∧
    twilioStatusPost (some (step (createSession "Hi" "Q") Event.greet))
        (some "completed")
        (CompletionOutcome.success (some "Bullet summary")) =
      ⟨some ⟨CallStatus.completed, [⟨Role.system, "Hi"⟩],
          some "Bullet summary", none, none, "Hi", "Q"⟩, true, true⟩ :=
  ⟨by decide, by decide, by decide⟩

/-- C1 (amended): for a session found by the status callback, the
summarizer requests a completion iff the lowercased `CallStatus` field is
`completed` and the transcript *including* system turns is non-empty (the
raw status string is consulted, not whether a status transition actually
occurred); when no session is found the summarizer never fires; and once a
summary is set, a later summarizer invocation never changes it. -/
theorem C1_amended_summarizer_fires_iff :
    (∀ (s : Session) (cs : String) (o : CompletionOutcome),
        (twilioStatusPost (some s) (some cs) o).summarizerFired = true ↔
          (jsToLower cs = "completed" ∧ s.transcript ≠ [])) ∧
    (∀ (cs : Option String) (o : CompletionOutcome),
        (twilioStatusPost none cs o).summarizerFired = false) ∧
    (∀ (s : Session) (o : CompletionOutcome) (t : String),
        s.summary = some t → ((maybeSummarize s o).1).summary = some t) := by
  refine ⟨?_, fun _ _ => rfl, ?_⟩
  · intro s cs o
    unfold twilioStatusPost
    simp only [Option.map_some]
    by_cases h1 : jsToLower cs = ""
    · simp [h1]
    · by_cases h2 : jsToLower cs = "completed"
      · simp [h1, h2, maybeSummarize_fired]
      · simp [h1, h2]
  · intro s o t h
    unfold maybeSummarize
    split
    · exact h
    · cases o with
      | failure => exact h
      | success c => simp [setSummary, h]

/-- Witness for C1 (amended): a session whose summary is already set keeps
it across another summarizer invocation. -/
theorem C1_amended_summarizer_fires_iff_witness :
    ((maybeSummarize ⟨CallStatus.completed, [⟨Role.user, "hey"⟩],
          some "done", none, none, "g", "q"⟩
        (CompletionOutcome.success (some "other"))).1).summary =
      some "done" :=
  C1_amended_summarizer_fires_iff.2.2 _
    (CompletionOutcome.success (some "other")) "done" rfl

/-- C6 counterexample: the model call succeeds with whitespace-only reply
content, which trims to the empty string; the appended assistant turn then
carries the empty string, not the fixed fallback line — the source's `??`
only fires on absent content, never on an empty string. -/
theorem C6_counterexample :
    (handleConversationTurn (createSession "Hi" "Q") (some "hello")
        (CompletionOutcome.success (some " "))).1.transcript =
      [⟨Role.user, "hello"⟩, ⟨Role.assistant, ""⟩] ∧
    ("" : String) ≠ fallbackLine :=
  ⟨by decide, by decide⟩

/-- C6 (amended): when the model completion call throws or succeeds with
absent reply content, the handler appends exactly one assistant turn
carrying the fixed fallback line; when it succeeds with present content,
the assistant turn carries that content trimmed (which is empty, not the
fallback line, for whitespace-only content); in all cases a success (200)
response is returned with no exception escaping. -/
theorem C6_amended_fallback_on_throw_or_absent :
    ∀ (s : Session) (input : Option String) (o : CompletionOutcome),
      (input.map jsTrim).getD "" ≠ "" →
      ((o = CompletionOutcome.failure ∨ o = CompletionOutcome.success none) →
        (handleConversationTurn s input o).1.transcript =
          s.transcript ++
            [⟨Role.user, (input.map jsTrim).getD ""⟩,
              ⟨Role.assistant, fallbackLine⟩]) ∧
      (∀ c, o = CompletionOutcome.success (some c) →
        (handleConversationTurn s input o).1.transcript =
          s.transcript ++
            [⟨Role.user, (input.map jsTrim).getD ""⟩,
              ⟨Role.assistant, jsTrim c⟩]) ∧
      ((handleConversationTurn s input o).2).httpStatus = 200 := by
  intro s input o h
  refine ⟨?_, ?_, ?_⟩
  · rintro (rfl | rfl) <;> exact handleTurn_appends_pair s input _ h
  · rintro c rfl
    exact handleTurn_appends_pair s input _ h
  · unfold handleConversationTurn
    simp [h]

/-- Witness for C6 (amended): a throwing model call on a concrete session
still yields the user turn followed by the fallback assistant turn. -/
theorem C6_amended_fallback_on_throw_or_absent_witness :
    (handleConversationTurn (createSession "Hi" "Q") (some "hello")
        CompletionOutcome.failure).1.transcript =
      (createSession "Hi" "Q").transcript ++
        [⟨Role.user, ((some "hello" : Option String).map jsTrim).getD ""⟩,
          ⟨Role.assistant, fallbackLine⟩] :=
  (C6_amended_fallback_on_throw_or_absent (createSession "Hi" "Q")
      (some "hello") CompletionOutcome.failure (by decide)).1 (Or.inl rfl)

end CallCore
